import Mathlib

/-!
Verification development for the dl4ds training core.

The definitions below are a shallow embedding of the two source files
`dl4ds/cgan.py` and `dl4ds/training_logic.py`.  Tensors are modelled as flat
lists of exact rational values, Python exceptions as the `Except.error`
branch of `Except String`, and the TensorFlow / Horovod collaborators
(`BinaryCrossentropy`, device enumeration, process rank) as explicit
parameters.  Line numbers in the doc comments refer to the source files.
-/

namespace DL4DS

/-! ### Embedding of cgan.py -/

/-- A tensor, modelled as the flat list of its rational entries. -/
abbrev Tensor := List ℚ

/-- Embeds `tf.ones_like`: a tensor of the same shape filled with ones. -/
def ones_like (t : Tensor) : Tensor := t.map fun _ => 1

/-- Embeds `tf.reduce_mean`: the arithmetic mean of all entries. -/
def reduce_mean (t : Tensor) : ℚ := t.sum / (t.length : ℚ)

/-- Embeds `tf.reduce_mean(tf.abs(target - gen_output))` from cgan.py line 36:
the mean absolute elementwise error between two tensors. -/
def l1_loss_of (target gen_output : Tensor) : ℚ :=
  reduce_mean (List.zipWith (fun a b => |a - b|) target gen_output)

/-- The three scalars returned by `generator_loss` (cgan.py line 38). -/
structure GeneratorLossResult where
  total_gen_loss : ℚ
  gan_loss : ℚ
  l1_loss : ℚ
  deriving DecidableEq

/-- Embeds `generator_loss` (cgan.py lines 24-38).  The Keras
`BinaryCrossentropy(from_logits=True)` object is an external collaborator
(transcendental float computation), so it is passed in as an abstract
function `binary_crossentropy` of the label tensor and the logit tensor;
the embedding records exactly which arguments the source hands to it:
`binary_crossentropy(tf.ones_like(disc_generated_output), disc_generated_output)`. -/
def generator_loss (binary_crossentropy : Tensor → Tensor → ℚ)
    (disc_generated_output gen_output target : Tensor)
    (lambda_scaling_factor : ℚ) : GeneratorLossResult :=
  let gan_loss := binary_crossentropy (ones_like disc_generated_output) disc_generated_output
  let l1_loss := l1_loss_of target gen_output
  { total_gen_loss := gan_loss + lambda_scaling_factor * l1_loss
    gan_loss := gan_loss
    l1_loss := l1_loss }

/-- The Python signature of `generator_loss` declares the default
`lambda_scaling_factor=100` (cgan.py line 24); this is the call with the
default in place. -/
def generator_loss_default (binary_crossentropy : Tensor → Tensor → ℚ)
    (disc_generated_output gen_output target : Tensor) : GeneratorLossResult :=
  generator_loss binary_crossentropy disc_generated_output gen_output target 100

/-- Embeds the generator-loss computation inside `train_step` (cgan.py line 76):
`generator_loss(disc_generated_output, gen_lr_array, hr_array)` is called
without a `lambda_scaling_factor` argument, so the default applies. -/
def train_step_gen_loss (binary_crossentropy : Tensor → Tensor → ℚ)
    (disc_generated_output gen_lr_array hr_array : Tensor) : GeneratorLossResult :=
  generator_loss_default binary_crossentropy disc_generated_output gen_lr_array hr_array

/-- Embeds the checkpoint schedule of `training_cgan` (cgan.py lines 142-179).
Returns the 1-based epoch counts after which `checkpoint.save` runs, in
order: inside the epoch loop a save happens when
`(epoch + 1) % checkpoints_frequency == 0` (line 175), and after the loop
`checkpoint.save` runs unconditionally (line 179).  When
`checkpoints_frequency` is `None` the names `checkpoint` and
`checkpoint_prefix` are never bound (the block at lines 142-147 is skipped),
so the unconditional save at line 179 raises a `NameError` after the epoch
loop has finished; with a frequency of 0 the modulo at line 175 raises a
`ZeroDivisionError` in the first epoch. -/
def trainingCganCheckpoints (checkpoints_frequency : Option Nat) (epochs : Nat) :
    Except String (List Nat) :=
  match checkpoints_frequency with
  | some f =>
    if f = 0 ∧ 0 < epochs then
      .error "ZeroDivisionError: integer division or modulo by zero"
    else
      .ok ((List.range epochs).filterMap
        (fun epoch => if (epoch + 1) % f = 0 then some (epoch + 1) else none) ++ [epochs])
  | none => .error "NameError: name checkpoint is not defined"

/-- The per-epoch sample count of `training_cgan` is hardcoded to 10 at
cgan.py line 152 (`n_samples = 10`, with `x_train.shape[0]` commented out). -/
def n_samples : Nat := 10

/-- Embeds Python list indexing `x_train[i]` with a nonnegative index:
out-of-range access raises `IndexError`. -/
def pyGetItem (x_train : List α) (i : Nat) : Except String α :=
  match x_train[i]? with
  | some v => .ok v
  | none => .error "IndexError: list index out of range"

/-- Embeds the inner loop of one `training_cgan` epoch (cgan.py lines 154-163):
`for i in range(n_samples)` grabs `x_train[i]` and runs `train_step` on the
pair built from it; the returned list holds the samples fed to the per-step
protocol, in execution order. -/
def cganLoopFrom (x_train : List α) (i : Nat) : Nat → Except String (List α)
  | 0 => .ok []
  | Nat.succ k =>
    match pyGetItem x_train i with
    | .error e => .error e
    | .ok v =>
      match cganLoopFrom x_train (i + 1) k with
      | .error e => .error e
      | .ok rest => .ok (v :: rest)

/-- The samples processed by one epoch of `training_cgan`: indices `0` to
`n_samples - 1` of `x_train` (cgan.py lines 152-163). -/
def cganEpochSamples (x_train : List α) : Except String (List α) :=
  cganLoopFrom x_train 0 n_samples

/-! ### Embedding of training_logic.py -/

/-- The message of the `ValueError` raised for an unrecognized device
(training_logic.py line 66). -/
def deviceErrorMsg : String := "device not recognized"

/-- The message of the `ValueError` raised for an unrecognized loss name
(training_logic.py line 101). -/
def lossErrorMsg : String := "`loss` not recognized"

/-- The message of the `ValueError` raised when `patch_size` is not divisible
by `scale` (training_logic.py line 284). -/
def patchScaleErrorMsg : String :=
  "`patch_size` must be divisible by `scale` (remainder must be zero)"

/-- The message of the `ValueError` raised when `time_window` is given with a
non-recurrent model; the f-string at training_logic.py line 288 interpolates
the received `time_window` value. -/
def timeWindowErrorMsg (time_window : Nat) : String :=
  "``time_window=" ++ toString time_window ++
    "``, choose a model that handles samples with a temporal dimension"

/-- The message of the `ValueError` raised when a recurrent model is chosen
without `time_window`; the f-string at training_logic.py line 291
interpolates the received model name (the typo `postive` is in the source). -/
def modelRecErrorMsg (model : String) : String :=
  "``model=" ++ model ++ "``, the argument ``time_window`` must be a postive integer"

/-- Embeds the first-worker designation of `Trainer.__init__`
(training_logic.py lines 77-80): a process is the first worker when it runs
on GPU with Horovod rank 0, or whenever the device is CPU. -/
def running_on_first_worker (device : String) (rank : Nat) : Bool :=
  (device == "GPU" && rank == 0) || device == "CPU"

/-- The number of members of a process group of size `groupSize` (Horovod
ranks `0` to `groupSize - 1`) that `Trainer.__init__` designates as first
worker. -/
def firstWorkerCount (device : String) (groupSize : Nat) : Nat :=
  ((List.range groupSize).filter fun rank => running_on_first_worker device rank).length

/-- The part of the `Trainer` state set up by `Trainer.__init__` that the
claims concern (training_logic.py lines 68-80). -/
structure TrainerState where
  global_batch_size : Nat
  first_worker : Bool
  deriving DecidableEq

/-- Embeds `Trainer.__init__` lines 57-80: device-kind dispatch (an
unrecognized kind raises `ValueError` at line 66), computation of the global
batch size as `batch_size_per_replica * n_devices` (line 72) where
`nDevices` is the length of the device list returned by `list_devices`, and
the first-worker designation (lines 77-80). -/
def trainerInit (device : String) (batch_size nDevices rank : Nat) :
    Except String TrainerState :=
  if device = "GPU" then
    .ok { global_batch_size := batch_size * nDevices
          first_worker := running_on_first_worker device rank }
  else if device = "CPU" then
    .ok { global_batch_size := batch_size * nDevices
          first_worker := running_on_first_worker device rank }
  else
    .error deviceErrorMsg

/-- The six architecture names dispatched by `SupervisedTrainer.setup_model`
(training_logic.py lines 331-345). -/
def MODELS : List String :=
  ["resnet_spc", "resnet_bi", "resnet_rc",
   "recurrent_resnet_spc", "recurrent_resnet_rc", "recurrent_resnet_bi"]

/-- The recurrent architecture names (training_logic.py line 286). -/
def recmodels : List String :=
  ["recurrent_resnet_spc", "recurrent_resnet_rc", "recurrent_resnet_bi"]

/-- Embeds the patch-size check of `SupervisedTrainer.setup_datagen`
(training_logic.py lines 283-284): with a supplied `patch_size`, the Python
expression `self.patch_size % self.scale` raises `ZeroDivisionError` when
`scale` is zero, and a nonzero remainder raises the `ValueError`. -/
def patchCheck (patch_size : Option Nat) (scale : Nat) : Except String Unit :=
  match patch_size with
  | some p =>
    if scale = 0 then .error "ZeroDivisionError: integer division or modulo by zero"
    else if p % scale ≠ 0 then .error patchScaleErrorMsg
    else .ok ()
  | none => .ok ()

/-- Embeds the two `time_window` checks of `SupervisedTrainer.setup_datagen`
(training_logic.py lines 286-292): a supplied `time_window` with a
non-recurrent model raises, and a recurrent model without `time_window`
raises. -/
def timeWindowChecks (model : String) (time_window : Option Nat) : Except String Unit :=
  match time_window with
  | some tw => if model ∈ recmodels then .ok () else .error (timeWindowErrorMsg tw)
  | none => if model ∈ recmodels then .error (modelRecErrorMsg model) else .ok ()

/-- The validation performed by `SupervisedTrainer.setup_datagen`
(training_logic.py lines 283-292), in source order: the patch-size check,
then the `time_window` checks. -/
def setupDatagenChecks (model : String) (scale : Nat)
    (patch_size time_window : Option Nat) : Except String Unit :=
  match patchCheck patch_size scale with
  | .error e => .error e
  | .ok _ => timeWindowChecks model time_window

/-- Embeds the stage order of `SupervisedTrainer.__init__`
(training_logic.py lines 276-278): `setup_datagen` runs first, and only if
it does not raise do `setup_model` and `run` (where training happens)
execute.  `Except.ok ()` therefore means the construction reached the
training stage; `Except.error` means it raised during setup, before any
training started. -/
def supervisedTrainerConstruct (model : String) (scale : Nat)
    (patch_size time_window : Option Nat) : Except String Unit :=
  match setupDatagenChecks model scale patch_size time_window with
  | .error e => .error e
  | .ok _ => .ok ()

/-- The `learning_rate` argument of `SupervisedTrainer`: a scalar float or a
two-element tuple (training_logic.py lines 204-206). -/
inductive LearningRateArg
  | scalar (r : ℚ)
  | pair (lo hi : ℚ)
  deriving DecidableEq

/-- The learning-rate object handed to the `Adam` constructor
(training_logic.py line 362). -/
inductive OptimizerLR
  | constant (r : ℚ)
  | piecewiseConstantDecay (boundary lo hi : ℚ)
  deriving DecidableEq

/-- Embeds the optimizer setup of `SupervisedTrainer.run`
(training_logic.py lines 354-362): a tuple becomes a
`PiecewiseConstantDecay` schedule, a scalar float is multiplied by
`hvd.size()` (the process-group size) before `Adam` is constructed. -/
def resolveLearningRate (lr : LearningRateArg) (lr_decay_after : ℚ)
    (hvdSize : Nat) : OptimizerLR :=
  match lr with
  | .pair lo hi => .piecewiseConstantDecay lr_decay_after lo hi
  | .scalar r => .constant (r * (hvdSize : ℚ))

/-- Embeds the final-save block of `SupervisedTrainer.run`
(training_logic.py lines 437-443).  The local variable `save_path` is
assigned only inside the `if self.save_path is None` branch; when the caller
supplied a path, the reference `os.makedirs(save_path, ...)` on the first
worker raises `UnboundLocalError` (the attribute `self.save_path` is never
read there).  The result is the directory actually written, or `none` when
no write happens on this worker. -/
def runFinalSave (save : Bool) (save_path : Option String)
    (first_worker : Bool) : Except String (Option String) :=
  if save then
    match (if save_path = none then some "./saved_model/" else none : Option String) with
    | some localPath =>
      if first_worker then .ok (some localPath) else .ok none
    | none =>
      if first_worker then
        .error "UnboundLocalError: local variable save_path referenced before assignment"
      else .ok none
  else .ok none

/-- The message of `msg` contains `sub` as a contiguous substring. -/
abbrev containsStr (msg sub : String) : Prop := sub.toList <:+: msg.toList

/-- A string occurs in the concatenation that starts with it. -/
theorem containsStr_first (a b : String) : containsStr (a ++ b) a := by
  show a.toList <:+: (a ++ b).toList
  exact ⟨[], b.toList, by simp [String.toList]⟩

/-- The middle factor of a three-way concatenation is a substring of it. -/
theorem containsStr_mid (a b c : String) : containsStr (a ++ b ++ c) b := by
  show b.toList <:+: (a ++ b ++ c).toList
  exact ⟨a.toList, c.toList, by simp [String.toList]⟩

/-- Substring containment is transitive along an intermediate string. -/
theorem containsStr_trans {msg mid sub : String} (h₁ : containsStr msg mid)
    (h₂ : containsStr mid sub) : containsStr msg sub :=
  List.IsInfix.trans h₂ h₁

/-- The first factor of a three-way concatenation is a substring of it. -/
theorem containsStr_head (a b c : String) : containsStr (a ++ b ++ c) a := by
  show a.toList <:+: (a ++ b ++ c).toList
  exact ⟨[], b.toList ++ c.toList, by simp [String.toList]⟩

/-! ### Supporting lemmas -/

/-- On GPU the first-worker predicate holds exactly for rank 0. -/
theorem gpu_first_worker_pred (rank : Nat) :
    running_on_first_worker "GPU" rank = (rank == 0) := by
  unfold running_on_first_worker
  cases h : (rank == 0) <;> decide

/-- On CPU the first-worker predicate holds for every rank. -/
theorem cpu_first_worker_pred (rank : Nat) :
    running_on_first_worker "CPU" rank = true := by
  unfold running_on_first_worker
  rw [show (("CPU" : String) == "CPU") = true from by decide, Bool.or_true]

/-- On GPU, a nonempty process group has exactly one first worker (rank 0). -/
theorem firstWorkerCount_gpu : ∀ g : Nat, 0 < g → firstWorkerCount "GPU" g = 1 := by
  intro g
  induction g with
  | zero => intro h; exact absurd h (by decide)
  | succ n ih =>
    intro _
    rcases Nat.eq_zero_or_pos n with h0 | hn
    · subst h0; decide
    · have hn0 : running_on_first_worker "GPU" n = false := by
        rw [gpu_first_worker_pred]
        simp [Nat.pos_iff_ne_zero.mp hn]
      unfold firstWorkerCount at ih ⊢
      rw [List.range_succ, List.filter_append, List.length_append, ih hn]
      simp [List.filter, hn0]

/-- On CPU, every member of the process group is a first worker. -/
theorem firstWorkerCount_cpu (g : Nat) : firstWorkerCount "CPU" g = g := by
  unfold firstWorkerCount
  have hfilter : ∀ l : List Nat,
      (l.filter fun rank => running_on_first_worker "CPU" rank) = l := by
    intro l
    induction l with
    | nil => rfl
    | cons a t ih => simp [List.filter, cpu_first_worker_pred, ih]
  rw [hfilter, List.length_range]

/-- The time-window validation passes exactly when the recurrence of the
architecture and the presence of `time_window` agree. -/
theorem timeWindowChecks_ok_iff (model : String) (time_window : Option Nat) :
    timeWindowChecks model time_window = .ok () ↔
      (model ∈ recmodels ↔ time_window ≠ none) := by
  cases time_window with
  | none =>
    by_cases h : model ∈ recmodels
    · simp [timeWindowChecks, h]
    · simp [timeWindowChecks, h]
  | some tw =>
    by_cases h : model ∈ recmodels
    · simp [timeWindowChecks, h]
    · simp [timeWindowChecks, h]

/-- The inner loop of a `training_cgan` epoch, started at index `i` with `k`
iterations left, returns the `k` samples from index `i` on when they exist. -/
theorem cganLoopFrom_ok {α : Type} (x_train : List α) :
    ∀ (k i : Nat), i + k ≤ x_train.length →
      cganLoopFrom x_train i k = .ok ((x_train.drop i).take k) := by
  intro k
  induction k with
  | zero => intro i _; simp [cganLoopFrom]
  | succ n ih =>
    intro i h
    have hi : i < x_train.length := by omega
    unfold cganLoopFrom pyGetItem
    rw [List.getElem?_eq_getElem hi, ih (i + 1) (by omega),
      List.drop_eq_getElem_cons hi]
    rfl

/-- Sanity check of the enabled case in the claim on the cgan checkpoint
schedule: frequency 5 with 12 epochs saves after epochs 5, 10 and 12. -/
theorem cgan_checkpoints_enabled_example :
    trainingCganCheckpoints (some 5) 12 = .ok [5, 10, 12] := rfl

/-- Sanity check of the default-path case of the final save: with `save=True`
and `save_path=None` the first worker writes the default directory. -/
theorem runFinalSave_default_path_example :
    runFinalSave true none true = .ok (some "./saved_model/") := rfl

/-! ### Claims -/

/-- Claim C1: the claim states that with `checkpoints_frequency` disabled
(`None`) no periodic snapshot occurs but the final snapshot still occurs.
Evaluating the embedded checkpoint schedule of `training_cgan` at
`checkpoints_frequency = none` and `epochs = 12` shows the run instead
raises a `NameError` at the unconditional final `checkpoint.save`
(cgan.py line 179), because `checkpoint` is only bound when
`checkpoints_frequency` is not `None` (lines 142-147): no final snapshot is
written. -/
theorem C1_cgan_final_checkpoint_nameerror :
    trainingCganCheckpoints none 12 =
      .error "NameError: name checkpoint is not defined" := rfl

/-- Claim C2: the claim states that with `save=True` a model artifact is
written at the caller-provided `save_path`.  Evaluating the embedded
final-save block of `SupervisedTrainer.run` on the first worker with a
caller-provided path shows the run instead raises `UnboundLocalError`: the
local `save_path` is only assigned in the `save_path is None` branch
(training_logic.py lines 437-443), and `self.save_path` is never read. -/
theorem C2_final_save_unboundlocal :
    runFinalSave true (some "./my_model/") true =
      .error "UnboundLocalError: local variable save_path referenced before assignment" := rfl

/-- Claim C3, counterexample: with `device = CPU` and a process group of two
ranks, both members are designated first worker, so the count of first
workers is 2, not exactly one as the claim states. -/
theorem C3_cpu_two_first_workers :
    running_on_first_worker "CPU" 0 = true ∧ running_on_first_worker "CPU" 1 = true ∧
      firstWorkerCount "CPU" 2 = 2 ∧ firstWorkerCount "CPU" 2 ≠ 1 := by decide

/-- Claim C3, amended: on GPU every nonempty process group has exactly one
designated first worker (rank 0); on CPU every member of the process group
is designated first worker, so exactly one only when the group has a single
member. -/
theorem C3_first_worker_amended :
    (∀ g : Nat, 0 < g → firstWorkerCount "GPU" g = 1) ∧
      ∀ g : Nat, firstWorkerCount "CPU" g = g :=
  ⟨firstWorkerCount_gpu, firstWorkerCount_cpu⟩

/-- Claim C3, witness: the amended statement at GPU group size 4 and CPU
group size 3. -/
theorem C3_first_worker_amended_witness :
    (0 < 4 ∧ firstWorkerCount "GPU" 4 = 1) ∧ firstWorkerCount "CPU" 3 = 3 :=
  ⟨⟨by decide, C3_first_worker_amended.1 4 (by decide)⟩, C3_first_worker_amended.2 3⟩

/-- Claim C4: for every supplied `patch_size` and positive `scale` with
`patch_size % scale ≠ 0`, the construction of `SupervisedTrainer` raises the
divisibility `ValueError` during `setup_datagen`, before `setup_model` and
`run` (where training happens) execute. -/
theorem C4_patch_scale_raises (model : String) (time_window : Option Nat)
    (p scale : Nat) (hs : 0 < scale) (hm : p % scale ≠ 0) :
    supervisedTrainerConstruct model scale (some p) time_window =
      .error patchScaleErrorMsg := by
  have hs0 : ¬ scale = 0 := by omega
  simp [supervisedTrainerConstruct, setupDatagenChecks, patchCheck, hs0, hm]

/-- Claim C4, witness: patch size 50 with scale 4 (remainder 2). -/
theorem C4_patch_scale_raises_witness :
    0 < 4 ∧ 50 % 4 ≠ 0 ∧
      supervisedTrainerConstruct "resnet_spc" 4 (some 50) none =
        .error patchScaleErrorMsg :=
  ⟨by decide, by decide,
    C4_patch_scale_raises "resnet_spc" none 50 4 (by decide) (by decide)⟩

/-- Claim C5: for every architecture name handled by `setup_model`, when the
patch check passes, the construction of `SupervisedTrainer` completes
without raising exactly when the recurrence of the chosen architecture and
the presence of `time_window` agree: a recurrent name without `time_window`
raises, and a non-recurrent name with a supplied `time_window` raises. -/
theorem C5_time_window_iff (model : String) (_hm : model ∈ MODELS) (scale : Nat)
    (patch_size time_window : Option Nat)
    (hp : patchCheck patch_size scale = .ok ()) :
    supervisedTrainerConstruct model scale patch_size time_window = .ok () ↔
      (model ∈ recmodels ↔ time_window ≠ none) := by
  have hsetup : setupDatagenChecks model scale patch_size time_window =
      timeWindowChecks model time_window := by
    unfold setupDatagenChecks
    rw [hp]
  rw [← timeWindowChecks_ok_iff model time_window]
  unfold supervisedTrainerConstruct
  rw [hsetup]
  cases htw : timeWindowChecks model time_window with
  | error e => simp
  | ok u => cases u; simp

/-- Claim C5, witness: the recurrent architecture with a supplied time window
and a valid patch size constructs without raising. -/
theorem C5_time_window_iff_witness :
    ("recurrent_resnet_spc" ∈ MODELS ∧ patchCheck (some 16) 4 = .ok ()) ∧
      (supervisedTrainerConstruct "recurrent_resnet_spc" 4 (some 16) (some 5) = .ok () ↔
        ("recurrent_resnet_spc" ∈ recmodels ↔ (some 5 : Option Nat) ≠ none)) :=
  ⟨⟨by decide, rfl⟩,
    C5_time_window_iff "recurrent_resnet_spc" (by decide) 4 (some 16) (some 5) rfl⟩

/-- Claim C6: a scalar learning rate `r` with process-group size `g` yields
an optimizer constructed with effective learning rate `r * g`
(training_logic.py lines 359-362). -/
theorem C6_lr_scaling (r lr_decay_after : ℚ) (g : Nat) :
    resolveLearningRate (.scalar r) lr_decay_after g = .constant (r * (g : ℚ)) := rfl

/-- Claim C7: for every recognized device kind, per-replica batch size `b`
and visible-device count `n`, `Trainer.__init__` computes the global batch
size `b * n` (training_logic.py line 72). -/
theorem C7_global_batch_size (device : String)
    (h : device = "GPU" ∨ device = "CPU") (b n rank : Nat) :
    trainerInit device b n rank =
      .ok ⟨b * n, running_on_first_worker device rank⟩ := by
  rcases h with rfl | rfl
  · rfl
  · rfl

/-- Claim C7, witness: per-replica batch size 64 with 4 visible devices gives
global batch size 256. -/
theorem C7_global_batch_size_witness :
    ("GPU" = "GPU" ∨ "GPU" = "CPU") ∧
      trainerInit "GPU" 64 4 0 = .ok ⟨64 * 4, running_on_first_worker "GPU" 0⟩ :=
  ⟨Or.inl rfl, C7_global_batch_size "GPU" (Or.inl rfl) 64 4 0⟩

/-- Claim C8: `generator_loss` returns a total loss equal to the binary
cross-entropy between the discriminator verdict on generated output and an
all-ones target, plus `lambda_scaling_factor` times the mean absolute error
between the generated and target images; the factor defaults to 100, and
`train_step` computes the generator loss with this default
(cgan.py lines 24-38 and 76). -/
theorem C8_generator_loss_formula (binary_crossentropy : Tensor → Tensor → ℚ)
    (disc_generated_output gen_output target : Tensor) :
    train_step_gen_loss binary_crossentropy disc_generated_output gen_output target =
      generator_loss binary_crossentropy disc_generated_output gen_output target 100 ∧
      (generator_loss binary_crossentropy disc_generated_output gen_output
          target 100).total_gen_loss =
        binary_crossentropy (ones_like disc_generated_output) disc_generated_output +
          100 * l1_loss_of target gen_output :=
  ⟨rfl, rfl⟩

/-- Claim C9, counterexample: the unrecognized-device error raised by
`Trainer.__init__` for `device = "TPU"` has the message
`device not recognized`, which names the parameter but does not contain the
received value `TPU`, contradicting the claim that every
construction/setup-stage error message includes both. -/
theorem C9_device_msg_lacks_value :
    trainerInit "TPU" 64 1 0 = .error deviceErrorMsg ∧
      ¬ containsStr deviceErrorMsg "TPU" := by
  constructor
  · rfl
  · decide

/-- Claim C9, amended: the two `time_window`/architecture mismatch errors
include both the offending parameter name and the received value; the
unrecognized-device, unrecognized-loss and patch-size/scale errors include
the offending parameter name but not the received value. -/
theorem C9_error_messages_amended :
    (∀ tw : Nat, containsStr (timeWindowErrorMsg tw) "time_window" ∧
        containsStr (timeWindowErrorMsg tw) (toString tw)) ∧
      (∀ model : String, containsStr (modelRecErrorMsg model) "model" ∧
        containsStr (modelRecErrorMsg model) model) ∧
      containsStr deviceErrorMsg "device" ∧
      containsStr lossErrorMsg "loss" ∧
      containsStr patchScaleErrorMsg "patch_size" ∧
      containsStr patchScaleErrorMsg "scale" := by
  refine ⟨fun tw => ⟨?_, ?_⟩, fun model => ⟨?_, ?_⟩, by decide, by decide, by decide, by decide⟩
  · exact containsStr_trans (containsStr_head "``time_window=" (toString tw) _) (by decide)
  · exact containsStr_mid "``time_window=" (toString tw) _
  · exact containsStr_trans (containsStr_head "``model=" model _) (by decide)
  · exact containsStr_mid "``model=" model _

/-- Claim C10: whenever `x_train` holds at least 10 samples, one epoch of
`training_cgan` runs the per-step train protocol exactly 10 times, on the
first 10 samples of `x_train`, regardless of the total number of samples
(`n_samples` is hardcoded to 10 at cgan.py line 152). -/
theorem C10_ten_samples_per_epoch {α : Type} (x_train : List α)
    (h : 10 ≤ x_train.length) :
    cganEpochSamples x_train = .ok (x_train.take n_samples) ∧
      (x_train.take n_samples).length = n_samples := by
  constructor
  · have hloop := cganLoopFrom_ok x_train n_samples 0 (by simpa [n_samples] using h)
    simpa [cganEpochSamples] using hloop
  · simp only [n_samples, List.length_take]
    omega

/-- Claim C10, witness: a training set of 12 samples yields exactly the first
10 as the per-epoch samples. -/
theorem C10_ten_samples_per_epoch_witness :
    10 ≤ ([0, 1, 2, 3, 4, 5, 6, 7, 8, 9, 10, 11] : List Nat).length ∧
      (cganEpochSamples ([0, 1, 2, 3, 4, 5, 6, 7, 8, 9, 10, 11] : List Nat) =
          .ok (([0, 1, 2, 3, 4, 5, 6, 7, 8, 9, 10, 11] : List Nat).take n_samples) ∧
        (([0, 1, 2, 3, 4, 5, 6, 7, 8, 9, 10, 11] : List Nat).take n_samples).length =
          n_samples) :=
  ⟨by decide,
    C10_ten_samples_per_epoch ([0, 1, 2, 3, 4, 5, 6, 7, 8, 9, 10, 11] : List Nat) (by decide)⟩

end DL4DS
